import Mathlib

/-!
Shallow embedding of `src/server.js` (ffmpeg-concat-api), the single Express
handler `POST /concat-videos`, together with the body-parser middleware it is
mounted behind.

External effects (the filesystem, axios, the spawned ffmpeg process, uuid
generation) are modelled by an adversarial environment `Env` supplying the
outcome of each effectful step, and the handler is a pure function from the
request body, the generated job id and the environment to a `Trace` recording
every side effect the handler performs and the HTTP response it sends.

Modelling notes, tied to source lines:
- lines 31-35: `req.body` destructuring and validation are modelled on a JSON
  value; JavaScript truthiness of the `video_urls` field is modelled exactly
  (`undefined`/`null`/`false`/`0`/`""` are falsy).
- lines 49-73: the download loop is sequential; a failure of the axios request
  or of the file-stream write at index `i` is modelled as `Env.fetch i url`
  returning `.error msg` (the awaited promise rejecting), which aborts the loop.
- lines 91-102: the ffmpeg invocation reports `Env.ffmpegResult`; independently,
  `Env.ffmpegOutput` says whether `output.mp4` exists afterwards and with what
  content (ffmpeg may or may not have produced the file regardless of its
  reported exit status).
- line 113 and line 123: the two `fs.rmSync` call sites can each fail
  (`Env.rmAtSuccess`, `Env.rmAtCatch`); neither call is wrapped in its own
  try/catch in the source, so a throw at line 113 lands in the catch block and
  a throw at line 123 escapes the handler (modelled as `response = none`).
-/

namespace FfmpegConcat

/-- JSON values, the model of `req.body` (JavaScript numbers restricted to
integers; none of the verified properties depends on numeric fine structure). -/
inductive Json where
  | null : Json
  | bool (b : Bool) : Json
  | num (n : Int) : Json
  | str (s : String) : Json
  | arr (elems : List Json) : Json
  | obj (fields : List (String × Json)) : Json

/-- Field access `req.body.video_urls`: a lookup when the body is an object,
`undefined` (here `none`) otherwise. -/
def Json.lookup : Json → String → Option Json
  | .obj fields, k => List.lookup k fields
  | _, _ => none

/-- JavaScript truthiness of a JSON value. -/
def truthy : Json → Bool
  | .null => false
  | .bool b => b
  | .num n => !(n == 0)
  | .str s => !(s == "")
  | .arr _ => true
  | .obj _ => true

/-- Truthiness of a possibly-absent field (`undefined` is falsy). -/
def truthyOpt : Option Json → Bool
  | none => false
  | some j => truthy j

/-- The test `Array.isArray`. -/
def Json.isArr : Json → Bool
  | .arr _ => true
  | _ => false

/-- `Array.isArray(video_urls)` on a possibly-absent field. -/
def isArrOpt : Option Json → Bool
  | none => false
  | some j => j.isArr

/-- The value of `video_urls.length` when the field is an array (only consulted
in that case, thanks to short-circuit evaluation in the source condition). -/
def lenOpt : Option Json → Nat
  | some (.arr xs) => xs.length
  | _ => 0

/-- Line 33: `!video_urls || !Array.isArray(video_urls) || video_urls.length === 0`. -/
def invalidInput (vu : Option Json) : Bool :=
  !truthyOpt vu || !isArrOpt vu || lenOpt vu == 0

/-- The element list of the validated `video_urls` field. -/
def asArr : Option Json → List Json
  | some (.arr xs) => xs
  | _ => []

/-- Options passed to axios at lines 53-58. -/
structure AxiosConfig where
  method : String
  responseType : String
  timeout : Nat

/-- The request configuration of every download: `GET`, streamed, 120000 ms
timeout (source lines 53-58). -/
def axiosRequestConfig : AxiosConfig :=
  { method := "GET", responseType := "stream", timeout := 120000 }

/-- Outcomes of the external effects of one request, supplied adversarially.
`fetch i url` is the joint outcome of the axios GET and of streaming the body
to disk for index `i` (content written on success, the rejection message
otherwise). `ffmpegResult` is the reported ffmpeg exit (error carries the
stderr text used at line 96). `ffmpegOutput` is the content of `output.mp4`
after the invocation when the file exists, `none` when it does not.
`rmAtSuccess` and `rmAtCatch` are the outcomes of the `fs.rmSync` calls at
line 113 and line 123. -/
structure Env where
  mkdirResult : Except String Unit
  fetch : Nat → Json → Except String String
  ffmpegResult : Except String Unit
  ffmpegOutput : Option String
  rmAtSuccess : Except String Unit
  rmAtCatch : Except String Unit

/-- An HTTP response body: raw bytes (`res.send(buffer)`) or JSON (`res.json`). -/
inductive Body where
  | bytes (data : String) : Body
  | json (j : Json) : Body

/-- An HTTP response: status, the headers set explicitly by the handler, body. -/
structure Response where
  status : Nat
  headers : List (String × String)
  body : Body

/-- Everything one request does: whether the route handler ran at all (the
body-parser middleware may reject first), whether a job id was generated
(line 37), directories created, download indices started in order, files
written in order (path, content), whether ffmpeg was invoked, the recursive
removals attempted in order, whether the workspace directory exists when the
request terminates, and the response sent (`none` when an uncaught throw
escapes the handler and no response is produced by the handler code). -/
structure Trace where
  handlerRan : Bool
  jobIdAllocated : Bool
  dirsCreated : List String
  downloadsStarted : List Nat
  filesWritten : List (String × String)
  ffmpegInvoked : Bool
  rmAttempts : List String
  workspaceExists : Bool
  response : Option Response

/-- Line 38: the per-job workspace path. -/
def tempDirOf (jobId : String) : String := "/tmp/" ++ jobId

/-- Line 50: `path.join(tempDir, "video_" + i + ".mp4")`. -/
def videoFile (tempDir : String) (i : Nat) : String :=
  tempDir ++ "/video_" ++ toString i ++ ".mp4"

/-- A single quote character, used by the manifest line at line 79. -/
def sq : String := String.singleton (Char.ofNat 39)

/-- One manifest line (line 79): `file` followed by the quoted path. -/
def manifestLine (f : String) : String := "file " ++ sq ++ f ++ sq

/-- Lines 78-79: the manifest path and content for the downloaded files. -/
def manifestContent (files : List String) : String :=
  String.intercalate "\n" (files.map manifestLine)

/-- Lines 126-130: the JSON error payload. -/
def errorBody (details jobId : String) : Json :=
  .obj [("error", .str "Failed to concatenate videos"),
        ("details", .str details),
        ("jobId", .str jobId)]

/-- Lines 115-116: the two headers set on the success response. -/
def successHeaders : List (String × String) :=
  [("Content-Type", "video/mp4"),
   ("Content-Disposition", "attachment; filename=concatenated.mp4")]

/-- The 400 response of line 34. -/
def invalidResponse : Response :=
  { status := 400, headers := [],
    body := .json (.obj [("error", .str "video_urls array is required")]) }

/-- Lines 49-73: the sequential download loop starting at index `i`. Returns
the indices whose download started (in order), the files written (in order,
path and content), and either the first rejection's message or the list of
downloaded file paths accumulated in `downloadedFiles`. -/
def downloadLoop (env : Env) (tempDir : String) : List Json → Nat →
    List Nat × List (String × String) × Except String (List String)
  | [], _ => ([], [], .ok [])
  | url :: rest, i =>
    match env.fetch i url with
    | .error e => ([i], [], .error e)
    | .ok content =>
      let tempFile := videoFile tempDir i
      let r := downloadLoop env tempDir rest (i + 1)
      (i :: r.1, (tempFile, content) :: r.2.1,
       Except.map (fun files => tempFile :: files) r.2.2)

/-- Lines 119-131: the catch block. Receives the thrown error's message, the
side effects already performed, and whether the workspace directory exists at
this point. Line 122 guards the removal with `fs.existsSync`; the removal at
line 123 is not itself guarded by a try/catch, so its failure escapes the
handler and no response is sent. -/
def catchBlock (env : Env) (jobId errMsg : String) (dirs : List String)
    (started : List Nat) (written : List (String × String))
    (ffmpegRan : Bool) (priorRm : List String) (dirExists : Bool) : Trace :=
  if dirExists then
    match env.rmAtCatch with
    | .ok _ =>
      { handlerRan := true, jobIdAllocated := true, dirsCreated := dirs,
        downloadsStarted := started, filesWritten := written,
        ffmpegInvoked := ffmpegRan,
        rmAttempts := priorRm ++ [tempDirOf jobId], workspaceExists := false,
        response := some { status := 500, headers := [],
                           body := .json (errorBody errMsg jobId) } }
    | .error _ =>
      { handlerRan := true, jobIdAllocated := true, dirsCreated := dirs,
        downloadsStarted := started, filesWritten := written,
        ffmpegInvoked := ffmpegRan,
        rmAttempts := priorRm ++ [tempDirOf jobId], workspaceExists := true,
        response := none }
  else
    { handlerRan := true, jobIdAllocated := true, dirsCreated := dirs,
      downloadsStarted := started, filesWritten := written,
      ffmpegInvoked := ffmpegRan,
      rmAttempts := priorRm, workspaceExists := false,
      response := some { status := 500, headers := [],
                         body := .json (errorBody errMsg jobId) } }

/-- The entry `output.mp4` contributes to the written-file record when ffmpeg
leaves an output file behind (whatever its reported exit status). -/
def outEntry (env : Env) (tempDir : String) : List (String × String) :=
  match env.ffmpegOutput with
  | some c => [(tempDir ++ "/output.mp4", c)]
  | none => []

/-- Lines 42-131: the body of the `try`/`catch`, reached once validation has
passed, on the element list of `video_urls`. -/
def runPipeline (env : Env) (jobId : String) (urls : List Json) : Trace :=
  let tempDir := tempDirOf jobId
  match env.mkdirResult with
  | .error e =>
    catchBlock env jobId e [] [] [] false [] false
  | .ok _ =>
    match downloadLoop env tempDir urls 0 with
    | (started, written, .error e) =>
      catchBlock env jobId e [tempDir] started written false [] true
    | (started, written, .ok files) =>
      let listFile := tempDir ++ "/files.txt"
      let written3 := written ++ [(listFile, manifestContent files)] ++
        outEntry env tempDir
      match env.ffmpegResult with
      | .error stderr =>
        catchBlock env jobId ("FFmpeg failed: " ++ stderr)
          [tempDir] started written3 true [] true
      | .ok _ =>
        match env.ffmpegOutput with
        | none =>
          catchBlock env jobId "Output file was not created"
            [tempDir] started written3 true [] true
        | some content =>
          match env.rmAtSuccess with
          | .error e =>
            catchBlock env jobId e [tempDir] started written3 true
              [tempDir] true
          | .ok _ =>
            { handlerRan := true, jobIdAllocated := true,
              dirsCreated := [tempDir], downloadsStarted := started,
              filesWritten := written3, ffmpegInvoked := true,
              rmAttempts := [tempDir], workspaceExists := false,
              response := some { status := 200, headers := successHeaders,
                                 body := .bytes content } }

/-- Lines 30-132: the `POST /concat-videos` route handler, given the parsed
body, the uuid that line 37 generates, and the environment. -/
def runHandler (body : Json) (jobId : String) (env : Env) : Trace :=
  let vu := body.lookup "video_urls"
  if invalidInput vu then
    { handlerRan := true, jobIdAllocated := false, dirsCreated := [],
      downloadsStarted := [], filesWritten := [], ffmpegInvoked := false,
      rmAttempts := [], workspaceExists := false,
      response := some invalidResponse }
  else
    runPipeline env jobId (asArr vu)

/-- Line 10: the configured body-parser limit, 50mb in the units of the
`bytes` library used by express. -/
def jsonLimitBytes : Nat := 50 * 1024 * 1024

/-- Modelled from the spec: the `express.json({ limit: '50mb' })` middleware
mounted at line 10 is external library code not under `src/`; per the spec
(section 4.4, the input size limit) a request body exceeding the limit is
rejected before the route handler runs, with an HTTP 413 entity-too-large
error. `rawBodySize` is the byte size of the raw request body. -/
def handleRequest (rawBodySize : Nat) (body : Json) (jobId : String)
    (env : Env) : Trace :=
  if rawBodySize ≤ jsonLimitBytes then
    runHandler body jobId env
  else
    { handlerRan := false, jobIdAllocated := false, dirsCreated := [],
      downloadsStarted := [], filesWritten := [], ffmpegInvoked := false,
      rmAttempts := [], workspaceExists := false,
      response := some { status := 413, headers := [],
                         body := .json (.obj [("error",
                           .str "request entity too large")]) } }

/-! Helper lemmas characterizing the download loop and the handler branches. -/

/-- The file records produced by a fully successful run of the download loop
from index `i`, with per-index downloaded contents `contents`. -/
def expectedFiles (tempDir : String) : Nat → List String → List (String × String)
  | _, [] => []
  | i, c :: cs => (videoFile tempDir i, c) :: expectedFiles tempDir (i + 1) cs

lemma expectedFiles_length (tempDir : String) :
    ∀ (contents : List String) (i : Nat),
      (expectedFiles tempDir i contents).length = contents.length := by
  intro contents
  induction contents with
  | nil => intro i; rfl
  | cons c cs ih => intro i; simp [expectedFiles, ih]

lemma expectedFiles_getD (tempDir : String) :
    ∀ (contents : List String) (i k : Nat), k < contents.length →
      (expectedFiles tempDir i contents).getD k ("", "") =
        (videoFile tempDir (i + k), contents.getD k "") := by
  intro contents
  induction contents with
  | nil => intro i k hk; simp at hk
  | cons c cs ih =>
    intro i k hk
    cases k with
    | zero => simp [expectedFiles]
    | succ m =>
      have hm : m < cs.length := by simpa using hk
      have := ih (i + 1) m hm
      have harith : i + 1 + m = i + (m + 1) := by omega
      simpa [expectedFiles, harith] using this

lemma downloadLoop_ok (env : Env) (tempDir : String) :
    ∀ (urls : List Json) (contents : List String) (i : Nat),
      contents.length = urls.length →
      (∀ k, k < urls.length →
        env.fetch (i + k) (urls.getD k .null) = .ok (contents.getD k "")) →
      downloadLoop env tempDir urls i =
        (List.range' i urls.length,
         expectedFiles tempDir i contents,
         .ok ((List.range' i urls.length).map (videoFile tempDir))) := by
  intro urls
  induction urls with
  | nil =>
    intro contents i hlen _
    have : contents = [] := List.length_eq_zero.mp (by simpa using hlen)
    subst this
    simp [downloadLoop, expectedFiles]
  | cons u rest ih =>
    intro contents i hlen hfetch
    cases contents with
    | nil => simp at hlen
    | cons c cs =>
      have h0 : env.fetch i u = .ok c := by
        have := hfetch 0 (by simp)
        simpa using this
      have ihh := ih cs (i + 1) (by simpa using hlen) (fun k hk => by
        have h1 := hfetch (k + 1) (by simpa using Nat.succ_lt_succ hk)
        have h2 : i + (k + 1) = i + 1 + k := by omega
        rw [h2] at h1
        simpa using h1)
      simp [downloadLoop, h0, ihh, expectedFiles, List.range'_succ,
        Except.map]

lemma downloadLoop_err (env : Env) (tempDir : String) :
    ∀ (urls : List Json) (contents : List String) (i j : Nat) (e : String),
      j < urls.length →
      contents.length = j →
      (∀ k, k < j →
        env.fetch (i + k) (urls.getD k .null) = .ok (contents.getD k "")) →
      env.fetch (i + j) (urls.getD j .null) = .error e →
      downloadLoop env tempDir urls i =
        (List.range' i (j + 1), expectedFiles tempDir i contents,
         .error e) := by
  intro urls
  induction urls with
  | nil => intro contents i j e hj _ _ _; simp at hj
  | cons u rest ih =>
    intro contents i j e hj hlen hpre herr
    cases j with
    | zero =>
      have : contents = [] := List.length_eq_zero.mp hlen
      subst this
      have h0 : env.fetch i u = .error e := by simpa using herr
      simp [downloadLoop, h0, expectedFiles, List.range'_succ]
    | succ m =>
      cases contents with
      | nil => simp at hlen
      | cons c cs =>
        have h0 : env.fetch i u = .ok c := by
          have := hpre 0 (by omega)
          simpa using this
        have herr' : env.fetch (i + 1 + m) (rest.getD m .null) = .error e := by
          have h2 : i + (m + 1) = i + 1 + m := by omega
          rw [h2] at herr
          simpa using herr
        have hm : m < rest.length := by
          have := hj
          simp only [List.length_cons] at this
          omega
        have ihh := ih cs (i + 1) m e hm (by simpa using hlen)
          (fun k hk => by
            have h1 := hpre (k + 1) (by omega)
            have h2 : i + (k + 1) = i + 1 + k := by omega
            rw [h2] at h1
            simpa using h1) herr'
        simp [downloadLoop, h0, ihh, expectedFiles, List.range'_succ,
          Except.map]

lemma downloadLoop_files_shape (env : Env) (tempDir : String) :
    ∀ (urls : List Json) (i : Nat),
      ∀ p ∈ (downloadLoop env tempDir urls i).2.1,
        ∃ k, p.1 = videoFile tempDir k := by
  intro urls
  induction urls with
  | nil => intro i p hp; simp [downloadLoop] at hp
  | cons u rest ih =>
    intro i p hp
    unfold downloadLoop at hp
    cases hf : env.fetch i u with
    | error e => rw [hf] at hp; simp at hp
    | ok c =>
      rw [hf] at hp
      simp only [List.mem_cons] at hp
      rcases hp with hp | hp
      · exact ⟨i, by rw [hp]⟩
      · exact ih (i + 1) p hp

/-- Line 33's test on a present array field reduces to the emptiness test. -/
lemma invalidInput_arr (urls : List Json) :
    invalidInput (some (.arr urls)) = (urls.length == 0) := by
  simp [invalidInput, truthyOpt, truthy, isArrOpt, Json.isArr, lenOpt]

/-- On a validated body the handler runs the pipeline. -/
lemma runHandler_valid {body : Json} {jobId : String} {env : Env}
    {urls : List Json}
    (hvu : body.lookup "video_urls" = some (.arr urls)) (hne : urls ≠ []) :
    runHandler body jobId env = runPipeline env jobId urls := by
  have hinv : invalidInput (some (Json.arr urls)) = false := by
    rw [invalidInput_arr]
    cases urls with
    | nil => exact absurd rfl hne
    | cons a l => rfl
  simp [runHandler, hvu, hinv, asArr]

lemma catchBlock_rm_ok {env : Env} {jobId errMsg : String}
    {dirs : List String} {started : List Nat}
    {written : List (String × String)} {ffmpegRan : Bool}
    {priorRm : List String}
    (hrc : env.rmAtCatch = .ok ()) :
    catchBlock env jobId errMsg dirs started written ffmpegRan priorRm true =
      { handlerRan := true, jobIdAllocated := true, dirsCreated := dirs,
        downloadsStarted := started, filesWritten := written,
        ffmpegInvoked := ffmpegRan,
        rmAttempts := priorRm ++ [tempDirOf jobId], workspaceExists := false,
        response := some { status := 500, headers := [],
                           body := .json (errorBody errMsg jobId) } } := by
  simp [catchBlock, hrc]

lemma catchBlock_rm_err {env : Env} {jobId errMsg e2 : String}
    {dirs : List String} {started : List Nat}
    {written : List (String × String)} {ffmpegRan : Bool}
    {priorRm : List String}
    (hrc : env.rmAtCatch = .error e2) :
    catchBlock env jobId errMsg dirs started written ffmpegRan priorRm true =
      { handlerRan := true, jobIdAllocated := true, dirsCreated := dirs,
        downloadsStarted := started, filesWritten := written,
        ffmpegInvoked := ffmpegRan,
        rmAttempts := priorRm ++ [tempDirOf jobId], workspaceExists := true,
        response := none } := by
  simp [catchBlock, hrc]

lemma runPipeline_download_err {env : Env} {jobId : String} {urls : List Json}
    {started : List Nat} {written : List (String × String)} {e : String}
    (hmk : env.mkdirResult = .ok ())
    (hdl : downloadLoop env (tempDirOf jobId) urls 0 =
      (started, written, .error e)) :
    runPipeline env jobId urls =
      catchBlock env jobId e [tempDirOf jobId] started written false []
        true := by
  simp [runPipeline, hmk, hdl]

lemma runPipeline_ffmpeg_err {env : Env} {jobId : String} {urls : List Json}
    {started : List Nat} {written : List (String × String)}
    {files : List String} {stderr : String}
    (hmk : env.mkdirResult = .ok ())
    (hdl : downloadLoop env (tempDirOf jobId) urls 0 =
      (started, written, .ok files))
    (hff : env.ffmpegResult = .error stderr) :
    runPipeline env jobId urls =
      catchBlock env jobId ("FFmpeg failed: " ++ stderr) [tempDirOf jobId]
        started
        (written ++ [(tempDirOf jobId ++ "/files.txt", manifestContent files)]
          ++ outEntry env (tempDirOf jobId))
        true [] true := by
  simp [runPipeline, hmk, hdl, hff]

lemma runPipeline_out_missing {env : Env} {jobId : String} {urls : List Json}
    {started : List Nat} {written : List (String × String)}
    {files : List String}
    (hmk : env.mkdirResult = .ok ())
    (hdl : downloadLoop env (tempDirOf jobId) urls 0 =
      (started, written, .ok files))
    (hff : env.ffmpegResult = .ok ())
    (hout : env.ffmpegOutput = none) :
    runPipeline env jobId urls =
      catchBlock env jobId "Output file was not created" [tempDirOf jobId]
        started
        (written ++ [(tempDirOf jobId ++ "/files.txt", manifestContent files)]
          ++ outEntry env (tempDirOf jobId))
        true [] true := by
  simp [runPipeline, hmk, hdl, hff, hout]

lemma runPipeline_rm_err {env : Env} {jobId : String} {urls : List Json}
    {started : List Nat} {written : List (String × String)}
    {files : List String} {content e : String}
    (hmk : env.mkdirResult = .ok ())
    (hdl : downloadLoop env (tempDirOf jobId) urls 0 =
      (started, written, .ok files))
    (hff : env.ffmpegResult = .ok ())
    (hout : env.ffmpegOutput = some content)
    (hrm : env.rmAtSuccess = .error e) :
    runPipeline env jobId urls =
      catchBlock env jobId e [tempDirOf jobId] started
        (written ++ [(tempDirOf jobId ++ "/files.txt", manifestContent files)]
          ++ outEntry env (tempDirOf jobId))
        true [tempDirOf jobId] true := by
  simp [runPipeline, hmk, hdl, hff, hout, hrm]

lemma runPipeline_success {env : Env} {jobId : String} {urls : List Json}
    {started : List Nat} {written : List (String × String)}
    {files : List String} {content : String}
    (hmk : env.mkdirResult = .ok ())
    (hdl : downloadLoop env (tempDirOf jobId) urls 0 =
      (started, written, .ok files))
    (hff : env.ffmpegResult = .ok ())
    (hout : env.ffmpegOutput = some content)
    (hrm : env.rmAtSuccess = .ok ()) :
    runPipeline env jobId urls =
      { handlerRan := true, jobIdAllocated := true,
        dirsCreated := [tempDirOf jobId], downloadsStarted := started,
        filesWritten := written ++
          [(tempDirOf jobId ++ "/files.txt", manifestContent files)] ++
          outEntry env (tempDirOf jobId),
        ffmpegInvoked := true, rmAttempts := [tempDirOf jobId],
        workspaceExists := false,
        response := some { status := 200, headers := successHeaders,
                           body := .bytes content } } := by
  simp [runPipeline, hmk, hdl, hff, hout, hrm]

/-! Concrete fixtures used by witnesses and counterexamples. -/

/-- A fully cooperative environment: downloads succeed (content `AAA` at
index 0, `BBB` later), ffmpeg succeeds leaving `OUT`, removals succeed. -/
def envOk : Env :=
  { mkdirResult := .ok (),
    fetch := fun i _ => if i == 0 then .ok "AAA" else .ok "BBB",
    ffmpegResult := .ok (),
    ffmpegOutput := some "OUT",
    rmAtSuccess := .ok (),
    rmAtCatch := .ok () }

/-- A request body with one URL. -/
def bodyOne : Json :=
  .obj [("video_urls", .arr [.str "https://host/a.mp4"])]

/-- A request body with two URLs. -/
def bodyTwo : Json :=
  .obj [("video_urls",
    .arr [.str "https://host/a.mp4", .str "https://host/b.mp4"])]

/-! The claims. -/

/-- C1: for every request that passes input validation (so the workspace
`/tmp/<jobId>` is created, `mkdirResult = ok`), in every terminal state the
workspace is absent when the request terminates and the recursive removal
was performed exactly once; the removal operations themselves are modelled
as succeeding, matching the best-effort reading. -/
theorem workspace_cleanup_once (body : Json) (jobId : String) (env : Env)
    (hvalid : invalidInput (body.lookup "video_urls") = false)
    (hmk : env.mkdirResult = .ok ())
    (hrs : env.rmAtSuccess = .ok ())
    (hrc : env.rmAtCatch = .ok ()) :
    (runHandler body jobId env).workspaceExists = false ∧
    (runHandler body jobId env).rmAttempts = [tempDirOf jobId] := by
  have hrun : runHandler body jobId env =
      runPipeline env jobId (asArr (body.lookup "video_urls")) := by
    simp [runHandler, hvalid]
  rw [hrun]
  rcases hdl : downloadLoop env (tempDirOf jobId)
      (asArr (body.lookup "video_urls")) 0 with ⟨started, written, dl⟩
  cases dl with
  | error e =>
    rw [runPipeline_download_err hmk hdl, catchBlock_rm_ok hrc]
    exact ⟨rfl, by simp⟩
  | ok files =>
    cases hff : env.ffmpegResult with
    | error stderr =>
      rw [runPipeline_ffmpeg_err hmk hdl hff, catchBlock_rm_ok hrc]
      exact ⟨rfl, by simp⟩
    | ok u =>
      obtain ⟨⟩ := u
      cases hout : env.ffmpegOutput with
      | none =>
        rw [runPipeline_out_missing hmk hdl hff hout, catchBlock_rm_ok hrc]
        exact ⟨rfl, by simp⟩
      | some content =>
        rw [runPipeline_success hmk hdl hff hout hrs]
        exact ⟨rfl, rfl⟩

/-- C1 witness: a concrete successful run removes the workspace exactly once. -/
theorem workspace_cleanup_once_witness :
    invalidInput (bodyOne.lookup "video_urls") = false ∧
    ((runHandler bodyOne "j" envOk).workspaceExists = false ∧
     (runHandler bodyOne "j" envOk).rmAttempts = [tempDirOf "j"]) :=
  ⟨rfl, workspace_cleanup_once bodyOne "j" envOk rfl rfl rfl rfl⟩

/-- C2: a missing, non-array or empty-array `video_urls` field yields exactly
the 400 response with body `\x7b"error": "video_urls array is required"\x7d`,
no job id is allocated and no filesystem side effect occurs. -/
theorem invalid_input_rejected (body : Json) (jobId : String) (env : Env)
    (hcond : body.lookup "video_urls" = none ∨
      (∃ j, body.lookup "video_urls" = some j ∧ j.isArr = false) ∨
      body.lookup "video_urls" = some (.arr [])) :
    (runHandler body jobId env).response =
      some { status := 400, headers := [],
             body := .json (.obj
               [("error", .str "video_urls array is required")]) } ∧
    (runHandler body jobId env).jobIdAllocated = false ∧
    (runHandler body jobId env).dirsCreated = [] ∧
    (runHandler body jobId env).filesWritten = [] ∧
    (runHandler body jobId env).downloadsStarted = [] ∧
    (runHandler body jobId env).rmAttempts = [] := by
  have hinv : invalidInput (body.lookup "video_urls") = true := by
    rcases hcond with h | ⟨j, hj, hja⟩ | h
    · simp [invalidInput, h, truthyOpt]
    · rw [hj]
      cases j <;>
        simp_all [invalidInput, truthyOpt, truthy, isArrOpt, Json.isArr,
          lenOpt]
    · simp [invalidInput, h, truthyOpt, truthy, isArrOpt, Json.isArr, lenOpt]
  simp [runHandler, hinv, invalidResponse]

/-- C2 witness: the concrete scenario of the spec, an empty `video_urls`. -/
theorem invalid_input_rejected_witness :
    ((Json.obj [("video_urls", Json.arr [])]).lookup "video_urls" =
      some (Json.arr []) ∧
    (runHandler (Json.obj [("video_urls", Json.arr [])]) "j" envOk).response =
      some { status := 400, headers := [],
             body := .json (.obj
               [("error", .str "video_urls array is required")]) } ∧
    (runHandler (Json.obj [("video_urls", Json.arr [])]) "j"
      envOk).jobIdAllocated = false) :=
  ⟨rfl,
   (invalid_input_rejected (Json.obj [("video_urls", Json.arr [])]) "j" envOk
     (Or.inr (Or.inr rfl))).1,
   (invalid_input_rejected (Json.obj [("video_urls", Json.arr [])]) "j" envOk
     (Or.inr (Or.inr rfl))).2.1⟩

/-- Like `envOk` but ffmpeg reports success without creating `output.mp4`. -/
def envOutMissing : Env := { envOk with ffmpegOutput := none }

/-- Like `envOk` but ffmpeg leaves an empty `output.mp4` behind. -/
def envEmptyOut : Env := { envOk with ffmpegOutput := some "" }

/-- Like `envOk` but the success-path removal (line 113) fails. -/
def envRmFail : Env :=
  { envOk with rmAtSuccess := .error "EACCES: permission denied" }

/-- A download fails and the catch-path removal (line 123) also fails. -/
def envRmCatchFail : Env :=
  { mkdirResult := .ok (),
    fetch := fun _ _ => .error "socket hang up",
    ffmpegResult := .ok (),
    ffmpegOutput := none,
    rmAtSuccess := .ok (),
    rmAtCatch := .error "EBUSY: resource busy" }

/-- C4: when the processor reports success but `output.mp4` is absent, the
independent `fs.existsSync` check fails the job: the thrown
`Output file was not created` is surfaced as an HTTP 500 error response, not
a success, and the workspace is removed. -/
theorem missing_output_reported (body : Json) (jobId : String) (env : Env)
    (urls : List Json) (started : List Nat)
    (written : List (String × String)) (files : List String)
    (hvu : body.lookup "video_urls" = some (.arr urls))
    (hne : urls ≠ [])
    (hmk : env.mkdirResult = .ok ())
    (hdl : downloadLoop env (tempDirOf jobId) urls 0 =
      (started, written, .ok files))
    (hff : env.ffmpegResult = .ok ())
    (hout : env.ffmpegOutput = none)
    (hrc : env.rmAtCatch = .ok ()) :
    (runHandler body jobId env).response =
      some { status := 500, headers := [],
             body := .json (errorBody "Output file was not created" jobId) } ∧
    (runHandler body jobId env).workspaceExists = false := by
  rw [runHandler_valid hvu hne, runPipeline_out_missing hmk hdl hff hout,
    catchBlock_rm_ok hrc]
  exact ⟨rfl, rfl⟩

/-- C4 witness: a concrete run where ffmpeg reports success but leaves no
output file. -/
theorem missing_output_reported_witness :
    (runHandler bodyOne "j" envOutMissing).response =
      some { status := 500, headers := [],
             body := .json (errorBody "Output file was not created" "j") } ∧
    (runHandler bodyOne "j" envOutMissing).workspaceExists = false :=
  missing_output_reported bodyOne "j" envOutMissing
    [Json.str "https://host/a.mp4"] [0] [("/tmp/j/video_0.mp4", "AAA")]
    ["/tmp/j/video_0.mp4"] rfl (List.cons_ne_nil _ _) rfl rfl rfl rfl rfl

/-- C5 counterexample: the code checks only that `output.mp4` exists, never
that it is non-empty; with an existing but empty output file the handler
responds 200 with an empty body, refuting both the claimed non-emptiness
verification and the claimed non-empty response body. -/
theorem empty_output_returns_200 :
    (runHandler bodyOne "j" envEmptyOut).response =
      some { status := 200, headers := successHeaders, body := .bytes "" } :=
  rfl

/-- C5 (amended): for every successful pipeline run the output artifact is
verified to exist (its non-emptiness is not checked) before it is read, and
the HTTP 200 response carries exactly the headers
`Content-Type: video/mp4` and
`Content-Disposition: attachment; filename=concatenated.mp4`, its body being
exactly the output file's bytes (hence non-empty whenever that file is). -/
theorem success_response_exact (body : Json) (jobId : String) (env : Env)
    (urls : List Json) (started : List Nat)
    (written : List (String × String)) (files : List String)
    (content : String)
    (hvu : body.lookup "video_urls" = some (.arr urls))
    (hne : urls ≠ [])
    (hmk : env.mkdirResult = .ok ())
    (hdl : downloadLoop env (tempDirOf jobId) urls 0 =
      (started, written, .ok files))
    (hff : env.ffmpegResult = .ok ())
    (hout : env.ffmpegOutput = some content)
    (hrm : env.rmAtSuccess = .ok ()) :
    (runHandler body jobId env).response =
      some { status := 200,
             headers := [("Content-Type", "video/mp4"),
                         ("Content-Disposition",
                          "attachment; filename=concatenated.mp4")],
             body := .bytes content } := by
  rw [runHandler_valid hvu hne, runPipeline_success hmk hdl hff hout hrm]
  rfl

/-- C5 witness: a concrete successful run with output bytes `OUT`. -/
theorem success_response_exact_witness :
    (runHandler bodyOne "j" envOk).response =
      some { status := 200,
             headers := [("Content-Type", "video/mp4"),
                         ("Content-Disposition",
                          "attachment; filename=concatenated.mp4")],
             body := .bytes "OUT" } :=
  success_response_exact bodyOne "j" envOk [Json.str "https://host/a.mp4"]
    [0] [("/tmp/j/video_0.mp4", "AAA")] ["/tmp/j/video_0.mp4"] "OUT"
    rfl (List.cons_ne_nil _ _) rfl rfl rfl rfl rfl

/-- C7 counterexample: neither `fs.rmSync` call site is wrapped in its own
try/catch. In a run whose pipeline fully succeeded, a failure of the
success-path removal (line 113) lands in the catch block and turns the
outcome into an HTTP 500 carrying the removal error — the already-successful
outcome is not preserved and the failure is not merely logged. -/
theorem rm_failure_changes_outcome :
    (runHandler bodyOne "j" envRmFail).response =
      some { status := 500, headers := [],
             body := .json (errorBody "EACCES: permission denied" "j") } :=
  rfl

/-- C7 (amended): a workspace-removal failure is escalated, not merely
logged: on the success path the handler's catch converts the successful
outcome into an HTTP 500 whose details carry the removal error, and on an
error path a removal failure propagates out of the handler uncaught, so the
original error response is never sent. -/
theorem rm_failure_escalates :
    (∀ (body : Json) (jobId : String) (env : Env) (urls : List Json)
       (started : List Nat) (written : List (String × String))
       (files : List String) (content e : String),
       body.lookup "video_urls" = some (.arr urls) → urls ≠ [] →
       env.mkdirResult = .ok () →
       downloadLoop env (tempDirOf jobId) urls 0 =
         (started, written, .ok files) →
       env.ffmpegResult = .ok () → env.ffmpegOutput = some content →
       env.rmAtSuccess = .error e → env.rmAtCatch = .ok () →
       (runHandler body jobId env).response =
         some { status := 500, headers := [],
                body := .json (errorBody e jobId) }) ∧
    (∀ (body : Json) (jobId : String) (env : Env) (urls : List Json)
       (e e2 : String),
       body.lookup "video_urls" = some (.arr urls) → urls ≠ [] →
       env.mkdirResult = .ok () →
       env.fetch 0 (urls.getD 0 .null) = .error e →
       env.rmAtCatch = .error e2 →
       (runHandler body jobId env).response = none) := by
  constructor
  · intro body jobId env urls started written files content e hvu hne hmk hdl
      hff hout hrm hrc
    rw [runHandler_valid hvu hne, runPipeline_rm_err hmk hdl hff hout hrm,
      catchBlock_rm_ok hrc]
  · intro body jobId env urls e e2 hvu hne hmk herr hrc
    cases urls with
    | nil => exact absurd rfl hne
    | cons u rest =>
      have h0 : env.fetch 0 u = .error e := by simpa using herr
      have hdl : downloadLoop env (tempDirOf jobId) (u :: rest) 0 =
          ([0], [], .error e) := by
        simp [downloadLoop, h0]
      rw [runHandler_valid hvu (List.cons_ne_nil _ _),
        runPipeline_download_err hmk hdl, catchBlock_rm_err hrc]

/-- C7 witness: both escalation modes at concrete inputs — a successful run
whose cleanup fails becomes a 500, and a failed download whose catch-path
cleanup fails produces no response at all. -/
theorem rm_failure_escalates_witness :
    (runHandler bodyOne "j" envRmFail).response =
      some { status := 500, headers := [],
             body := .json (errorBody "EACCES: permission denied" "j") } ∧
    (runHandler bodyOne "j" envRmCatchFail).response = none :=
  ⟨rm_failure_escalates.1 bodyOne "j" envRmFail
     [Json.str "https://host/a.mp4"] [0] [("/tmp/j/video_0.mp4", "AAA")]
     ["/tmp/j/video_0.mp4"] "OUT" "EACCES: permission denied"
     rfl (List.cons_ne_nil _ _) rfl rfl rfl rfl rfl rfl,
   rm_failure_escalates.2 bodyOne "j" envRmCatchFail
     [Json.str "https://host/a.mp4"] "socket hang up" "EBUSY: resource busy"
     rfl (List.cons_ne_nil _ _) rfl rfl rfl⟩

/-- C3: with a valid non-empty URL list and all downloads succeeding, the
download sequence preserves input order exactly: downloads start strictly
sequentially in index order, the file written at position `k` is
`video_<k>.mp4` holding the content fetched for URL `k`, and the manifest
written right after lists the downloaded paths in exactly the input order. -/
theorem download_order_preserved (body : Json) (jobId : String) (env : Env)
    (urls : List Json) (contents : List String)
    (hvu : body.lookup "video_urls" = some (.arr urls))
    (hne : urls ≠ [])
    (hlen : contents.length = urls.length)
    (hfetch : ∀ k, k < urls.length →
      env.fetch k (urls.getD k .null) = .ok (contents.getD k ""))
    (hmk : env.mkdirResult = .ok ()) :
    (runHandler body jobId env).downloadsStarted = List.range urls.length ∧
    (∀ k, k < urls.length →
      ((runHandler body jobId env).filesWritten).getD k ("", "") =
        (videoFile (tempDirOf jobId) k, contents.getD k "")) ∧
    ((runHandler body jobId env).filesWritten).getD urls.length ("", "") =
      (tempDirOf jobId ++ "/files.txt",
       manifestContent ((List.range urls.length).map
         (videoFile (tempDirOf jobId)))) := by
  rw [runHandler_valid hvu hne]
  have hdl := downloadLoop_ok env (tempDirOf jobId) urls contents 0 hlen
    (fun k hk => by simpa using hfetch k hk)
  have hshape :
      (runPipeline env jobId urls).downloadsStarted =
        List.range' 0 urls.length ∧
      (runPipeline env jobId urls).filesWritten =
        expectedFiles (tempDirOf jobId) 0 contents ++
          [(tempDirOf jobId ++ "/files.txt",
            manifestContent ((List.range' 0 urls.length).map
              (videoFile (tempDirOf jobId))))] ++
          outEntry env (tempDirOf jobId) := by
    cases hff : env.ffmpegResult with
    | error stderr =>
      rw [runPipeline_ffmpeg_err hmk hdl hff]
      cases hrc : env.rmAtCatch with
      | ok u => obtain ⟨⟩ := u; rw [catchBlock_rm_ok hrc]; exact ⟨rfl, rfl⟩
      | error e2 => rw [catchBlock_rm_err hrc]; exact ⟨rfl, rfl⟩
    | ok u =>
      obtain ⟨⟩ := u
      cases hout : env.ffmpegOutput with
      | none =>
        rw [runPipeline_out_missing hmk hdl hff hout]
        cases hrc : env.rmAtCatch with
        | ok u2 => obtain ⟨⟩ := u2; rw [catchBlock_rm_ok hrc]; exact ⟨rfl, rfl⟩
        | error e2 => rw [catchBlock_rm_err hrc]; exact ⟨rfl, rfl⟩
      | some content =>
        cases hrm : env.rmAtSuccess with
        | error e =>
          rw [runPipeline_rm_err hmk hdl hff hout hrm]
          cases hrc : env.rmAtCatch with
          | ok u2 =>
            obtain ⟨⟩ := u2; rw [catchBlock_rm_ok hrc]; exact ⟨rfl, rfl⟩
          | error e2 => rw [catchBlock_rm_err hrc]; exact ⟨rfl, rfl⟩
        | ok u2 =>
          obtain ⟨⟩ := u2
          rw [runPipeline_success hmk hdl hff hout hrm]
          exact ⟨rfl, rfl⟩
  obtain ⟨hstart, hfiles⟩ := hshape
  refine ⟨by rw [hstart, List.range_eq_range'], ?_, ?_⟩
  · intro k hk
    rw [hfiles, List.append_assoc]
    have hkE : k < (expectedFiles (tempDirOf jobId) 0 contents).length := by
      rw [expectedFiles_length]; omega
    rw [List.getD_append _ _ _ _ hkE]
    have := expectedFiles_getD (tempDirOf jobId) contents 0 k (by omega)
    simpa using this
  · rw [hfiles, List.append_assoc]
    have hE : (expectedFiles (tempDirOf jobId) 0 contents).length =
        urls.length := by
      rw [expectedFiles_length]; exact hlen
    rw [List.getD_append_right _ _ _ _ hE.le]
    simp [hE, List.range_eq_range']

/-- C3 witness: a concrete two-URL run, fully characterized. -/
theorem download_order_preserved_witness :
    (runHandler bodyTwo "j" envOk).downloadsStarted = List.range 2 ∧
    (∀ k, k < 2 →
      ((runHandler bodyTwo "j" envOk).filesWritten).getD k ("", "") =
        (videoFile (tempDirOf "j") k, ["AAA", "BBB"].getD k "")) ∧
    ((runHandler bodyTwo "j" envOk).filesWritten).getD 2 ("", "") =
      (tempDirOf "j" ++ "/files.txt",
       manifestContent ((List.range 2).map (videoFile (tempDirOf "j")))) := by
  have h := download_order_preserved bodyTwo "j" envOk
    [Json.str "https://host/a.mp4", Json.str "https://host/b.mp4"]
    ["AAA", "BBB"] rfl (List.cons_ne_nil _ _) rfl
    (fun k hk => by
      match k, hk with
      | 0, _ => rfl
      | 1, _ => rfl) rfl
  exact h

/-- An environment in which the second download times out. -/
def envDownFail : Env :=
  { envOk with
    fetch := fun i _ =>
      if i == 0 then .ok "AAA" else .error "timeout of 120000ms exceeded" }

/-- C6: if the download at index `j` fails after the first `j` succeeded, the
job aborts immediately: no download after index `j` starts, ffmpeg is never
invoked, the response is the HTTP 500 error payload, and the workspace is
absent afterwards. -/
theorem download_failure_fail_fast (body : Json) (jobId : String) (env : Env)
    (urls : List Json) (contents : List String) (j : Nat) (e : String)
    (hvu : body.lookup "video_urls" = some (.arr urls))
    (hne : urls ≠ [])
    (hmk : env.mkdirResult = .ok ())
    (hj : j < urls.length)
    (hlenj : contents.length = j)
    (hpre : ∀ k, k < j →
      env.fetch k (urls.getD k .null) = .ok (contents.getD k ""))
    (herr : env.fetch j (urls.getD j .null) = .error e)
    (hrc : env.rmAtCatch = .ok ()) :
    (runHandler body jobId env).downloadsStarted = List.range (j + 1) ∧
    (runHandler body jobId env).ffmpegInvoked = false ∧
    (runHandler body jobId env).response =
      some { status := 500, headers := [],
             body := .json (errorBody e jobId) } ∧
    (runHandler body jobId env).workspaceExists = false := by
  rw [runHandler_valid hvu hne]
  have hdl := downloadLoop_err env (tempDirOf jobId) urls contents 0 j e hj
    hlenj (fun k hk => by simpa using hpre k hk) (by simpa using herr)
  rw [runPipeline_download_err hmk hdl, catchBlock_rm_ok hrc]
  exact ⟨by simp [List.range_eq_range'], rfl, rfl, rfl⟩

/-- C6 witness: a concrete run whose second download times out. -/
theorem download_failure_fail_fast_witness :
    (runHandler bodyTwo "j" envDownFail).downloadsStarted = List.range 2 ∧
    (runHandler bodyTwo "j" envDownFail).ffmpegInvoked = false ∧
    (runHandler bodyTwo "j" envDownFail).response =
      some { status := 500, headers := [],
             body := .json (errorBody "timeout of 120000ms exceeded" "j") } ∧
    (runHandler bodyTwo "j" envDownFail).workspaceExists = false :=
  download_failure_fail_fast bodyTwo "j" envDownFail
    [Json.str "https://host/a.mp4", Json.str "https://host/b.mp4"]
    ["AAA"] 1 "timeout of 120000ms exceeded"
    rfl (List.cons_ne_nil _ _) rfl (by decide) rfl
    (fun k hk => by
      match k, hk with
      | 0, _ => rfl) rfl rfl

/-- Prefix test on character lists (the needle against the front of the hay). -/
def strPrefAt : List Char → List Char → Bool
  | [], _ => true
  | _ :: _, [] => false
  | a :: as, b :: bs => a == b && strPrefAt as bs

/-- Substring occurrence test on character lists. -/
def strContainsAux (needle : List Char) : List Char → Bool
  | [] => strPrefAt needle []
  | c :: cs => strPrefAt needle (c :: cs) || strContainsAux needle cs

/-- Substring occurrence test on strings. -/
def strContains (hay needle : String) : Bool :=
  strContainsAux needle.toList hay.toList

/-- All string atoms (keys and string values) of a flat JSON object. -/
def objStrings : Json → List String
  | .obj fields =>
    (fields.map (fun kv => kv.1 :: (match kv.2 with
      | .str s => [s]
      | _ => []))).flatten
  | _ => []

/-- An environment in which the second download fails with a plain axios
status-code message. -/
def env404 : Env :=
  { envOk with
    fetch := fun i _ =>
      if i == 0 then .ok "AAA"
      else .error "Request failed with status code 404" }

/-- C8 counterexample: a download of URL `https://host/b.mp4` (index 1) fails
with the axios message `Request failed with status code 404`; the surfaced
failure is exactly the generic 500 payload, and no string of that payload
contains the offending URL or its index — the code attaches neither. -/
theorem surfaced_error_lacks_url_and_index :
    (runHandler bodyTwo "j" env404).response =
      some { status := 500, headers := [],
             body := .json (errorBody "Request failed with status code 404"
               "j") } ∧
    ((objStrings (errorBody "Request failed with status code 404" "j")).all
      (fun s => !strContains s "https://host/b.mp4" && !strContains s "1"))
      = true :=
  ⟨rfl, rfl⟩

/-- C8 (amended): every fetch uses the fixed axios timeout of 120000 ms,
which lies in the 60-120 second range; on timeout or any transport/HTTP
error the surfaced failure is the HTTP 500 payload carrying the underlying
error message and the job identifier — the offending URL and its index are
not part of it (they appear only in server-side logs). -/
theorem fetch_timeout_and_surfaced_error :
    axiosRequestConfig.timeout = 120000 ∧
    60000 ≤ axiosRequestConfig.timeout ∧
    axiosRequestConfig.timeout ≤ 120000 ∧
    (∀ (body : Json) (jobId : String) (env : Env) (urls : List Json)
       (contents : List String) (j : Nat) (e : String),
       body.lookup "video_urls" = some (.arr urls) → urls ≠ [] →
       env.mkdirResult = .ok () →
       j < urls.length → contents.length = j →
       (∀ k, k < j →
         env.fetch k (urls.getD k .null) = .ok (contents.getD k "")) →
       env.fetch j (urls.getD j .null) = .error e →
       env.rmAtCatch = .ok () →
       (runHandler body jobId env).response =
         some { status := 500, headers := [],
                body := .json (errorBody e jobId) }) := by
  refine ⟨rfl, by decide, by decide, ?_⟩
  intro body jobId env urls contents j e hvu hne hmk hj hlenj hpre herr hrc
  rw [runHandler_valid hvu hne]
  have hdl := downloadLoop_err env (tempDirOf jobId) urls contents 0 j e hj
    hlenj (fun k hk => by simpa using hpre k hk) (by simpa using herr)
  rw [runPipeline_download_err hmk hdl, catchBlock_rm_ok hrc]

/-- C8 witness: the surfaced-error component applied to the concrete 404 run. -/
theorem fetch_timeout_and_surfaced_error_witness :
    (runHandler bodyTwo "j" env404).response =
      some { status := 500, headers := [],
             body := .json (errorBody "Request failed with status code 404"
               "j") } :=
  fetch_timeout_and_surfaced_error.2.2.2 bodyTwo "j" env404
    [Json.str "https://host/a.mp4", Json.str "https://host/b.mp4"]
    ["AAA"] 1 "Request failed with status code 404"
    rfl (List.cons_ne_nil _ _) rfl (by decide) rfl
    (fun k hk => by
      match k, hk with
      | 0, _ => rfl) rfl rfl

lemma outEntry_shape (env : Env) (tempDir : String) :
    ∀ p ∈ outEntry env tempDir, p.1 = tempDir ++ "/output.mp4" := by
  intro p hp
  unfold outEntry at hp
  cases h : env.ffmpegOutput with
  | none => rw [h] at hp; simp at hp
  | some c =>
    rw [h] at hp
    simp only [List.mem_singleton] at hp
    rw [hp]

lemma written3_confined {env : Env} {tempDir : String} {urls : List Json}
    {started : List Nat} {written : List (String × String)}
    {dl : Except String (List String)} (m : String)
    (hdl : downloadLoop env tempDir urls 0 = (started, written, dl)) :
    ∀ p ∈ written ++ [(tempDir ++ "/files.txt", m)] ++ outEntry env tempDir,
      p.1 = tempDir ++ "/files.txt" ∨ p.1 = tempDir ++ "/output.mp4" ∨
      ∃ i, p.1 = videoFile tempDir i := by
  intro p hp
  rw [List.append_assoc] at hp
  rcases List.mem_append.mp hp with hw | hrest
  · exact Or.inr (Or.inr
      (downloadLoop_files_shape env tempDir urls 0 p (by rw [hdl]; exact hw)))
  · rcases List.mem_append.mp hrest with hm | ho
    · left
      simp only [List.mem_singleton] at hm
      rw [hm]
    · exact Or.inr (Or.inl (outEntry_shape env tempDir p ho))

lemma catchBlock_effects (env : Env) (jobId errMsg : String)
    (dirs : List String) (started : List Nat)
    (written : List (String × String)) (ffm : Bool) (priorRm : List String) :
    (catchBlock env jobId errMsg dirs started written ffm priorRm
      true).filesWritten = written ∧
    (catchBlock env jobId errMsg dirs started written ffm priorRm
      true).dirsCreated = dirs ∧
    (catchBlock env jobId errMsg dirs started written ffm priorRm
      true).rmAttempts = priorRm ++ [tempDirOf jobId] := by
  unfold catchBlock
  cases env.rmAtCatch <;> simp

lemma runPipeline_confined (env : Env) (jobId : String) (urls : List Json) :
    (∀ p ∈ (runPipeline env jobId urls).filesWritten,
      p.1 = tempDirOf jobId ++ "/files.txt" ∨
      p.1 = tempDirOf jobId ++ "/output.mp4" ∨
      ∃ i, p.1 = videoFile (tempDirOf jobId) i) ∧
    (∀ d ∈ (runPipeline env jobId urls).dirsCreated, d = tempDirOf jobId) ∧
    (∀ r ∈ (runPipeline env jobId urls).rmAttempts, r = tempDirOf jobId) := by
  cases hmk : env.mkdirResult with
  | error e => simp [runPipeline, hmk, catchBlock]
  | ok u =>
    obtain ⟨⟩ := u
    rcases hdl : downloadLoop env (tempDirOf jobId) urls 0 with
      ⟨started, written, dl⟩
    cases dl with
    | error e =>
      rw [runPipeline_download_err hmk hdl]
      obtain ⟨hf, hd, hr⟩ := catchBlock_effects env jobId e [tempDirOf jobId]
        started written false []
      refine ⟨?_, ?_, ?_⟩
      · rw [hf]
        intro p hp
        exact Or.inr (Or.inr (downloadLoop_files_shape env _ urls 0 p
          (by rw [hdl]; exact hp)))
      · rw [hd]; intro d hd2; simpa using hd2
      · rw [hr]; intro r hr2; simpa using hr2
    | ok files =>
      have hw3 := written3_confined (manifestContent files) hdl
      cases hff : env.ffmpegResult with
      | error stderr =>
        rw [runPipeline_ffmpeg_err hmk hdl hff]
        obtain ⟨hf, hd, hr⟩ := catchBlock_effects env jobId
          ("FFmpeg failed: " ++ stderr) [tempDirOf jobId] started
          (written ++ [(tempDirOf jobId ++ "/files.txt",
            manifestContent files)] ++ outEntry env (tempDirOf jobId))
          true []
        refine ⟨by rw [hf]; exact hw3, ?_, ?_⟩
        · rw [hd]; intro d hd2; simpa using hd2
        · rw [hr]; intro r hr2; simpa using hr2
      | ok u2 =>
        obtain ⟨⟩ := u2
        cases hout : env.ffmpegOutput with
        | none =>
          rw [runPipeline_out_missing hmk hdl hff hout]
          obtain ⟨hf, hd, hr⟩ := catchBlock_effects env jobId
            "Output file was not created" [tempDirOf jobId] started
            (written ++ [(tempDirOf jobId ++ "/files.txt",
              manifestContent files)] ++ outEntry env (tempDirOf jobId))
            true []
          refine ⟨by rw [hf]; exact hw3, ?_, ?_⟩
          · rw [hd]; intro d hd2; simpa using hd2
          · rw [hr]; intro r hr2; simpa using hr2
        | some content =>
          cases hrm : env.rmAtSuccess with
          | error e =>
            rw [runPipeline_rm_err hmk hdl hff hout hrm]
            obtain ⟨hf, hd, hr⟩ := catchBlock_effects env jobId e
              [tempDirOf jobId] started
              (written ++ [(tempDirOf jobId ++ "/files.txt",
                manifestContent files)] ++ outEntry env (tempDirOf jobId))
              true [tempDirOf jobId]
            refine ⟨by rw [hf]; exact hw3, ?_, ?_⟩
            · rw [hd]; intro d hd2; simpa using hd2
            · rw [hr]
              intro r hr2
              simp only [List.mem_append, List.mem_singleton] at hr2
              rcases hr2 with h | h <;> exact h
          | ok u3 =>
            obtain ⟨⟩ := u3
            rw [runPipeline_success hmk hdl hff hout hrm]
            refine ⟨hw3, ?_, ?_⟩
            · intro d hd2; simpa using hd2
            · intro r hr2; simpa using hr2

/-- C9: every filesystem path a job creates — each `video_<i>.mp4`, the
manifest `files.txt` and the output `output.mp4` — lies directly inside that
job's workspace `/tmp/<jobId>`; the only directory created and the only path
recursively removed are the workspace itself, so the single recursive
removal deletes every artifact the job produced. -/
theorem artifacts_within_workspace (body : Json) (jobId : String)
    (env : Env) :
    tempDirOf jobId = "/tmp/" ++ jobId ∧
    (∀ p ∈ (runHandler body jobId env).filesWritten,
      p.1 = tempDirOf jobId ++ "/files.txt" ∨
      p.1 = tempDirOf jobId ++ "/output.mp4" ∨
      ∃ i, p.1 = videoFile (tempDirOf jobId) i) ∧
    (∀ d ∈ (runHandler body jobId env).dirsCreated, d = tempDirOf jobId) ∧
    (∀ r ∈ (runHandler body jobId env).rmAttempts, r = tempDirOf jobId) := by
  refine ⟨rfl, ?_⟩
  by_cases hinv : invalidInput (body.lookup "video_urls") = true
  · have hrw : runHandler body jobId env =
        { handlerRan := true, jobIdAllocated := false, dirsCreated := [],
          downloadsStarted := [], filesWritten := [], ffmpegInvoked := false,
          rmAttempts := [], workspaceExists := false,
          response := some invalidResponse } := by
      simp [runHandler, hinv]
    rw [hrw]
    simp
  · have hinv' : invalidInput (body.lookup "video_urls") = false := by
      simpa using hinv
    have hrw : runHandler body jobId env =
        runPipeline env jobId (asArr (body.lookup "video_urls")) := by
      simp [runHandler, hinv']
    rw [hrw]
    exact runPipeline_confined env jobId (asArr (body.lookup "video_urls"))

/-- C9 witness: a concrete downloaded file and the concrete removal target of
a successful run. -/
theorem artifacts_within_workspace_witness :
    ("/tmp/j/video_0.mp4", "AAA") ∈
      (runHandler bodyOne "j" envOk).filesWritten ∧
    (("/tmp/j/video_0.mp4", "AAA").1 = tempDirOf "j" ++ "/files.txt" ∨
     ("/tmp/j/video_0.mp4", "AAA").1 = tempDirOf "j" ++ "/output.mp4" ∨
     ∃ i, ("/tmp/j/video_0.mp4", "AAA").1 = videoFile (tempDirOf "j") i) ∧
    "/tmp/j" = tempDirOf "j" :=
  ⟨by decide,
   (artifacts_within_workspace bodyOne "j" envOk).2.1
     ("/tmp/j/video_0.mp4", "AAA") (by decide),
   (artifacts_within_workspace bodyOne "j" envOk).2.2.2 "/tmp/j" (by decide)⟩

/-- C10: a request whose raw JSON body exceeds the configured 50 MB parser
limit is rejected by the body-parser middleware before the handler runs: the
handler is never entered, no job identifier is generated and no filesystem
side effect occurs. (The middleware itself is external library code,
modelled from the spec; the limit value comes from line 10 of the source.) -/
theorem oversized_body_rejected (rawBodySize : Nat) (body : Json)
    (jobId : String) (env : Env)
    (h : jsonLimitBytes < rawBodySize) :
    (handleRequest rawBodySize body jobId env).handlerRan = false ∧
    (handleRequest rawBodySize body jobId env).jobIdAllocated = false ∧
    (handleRequest rawBodySize body jobId env).dirsCreated = [] ∧
    (handleRequest rawBodySize body jobId env).filesWritten = [] ∧
    (handleRequest rawBodySize body jobId env).downloadsStarted = [] ∧
    (handleRequest rawBodySize body jobId env).rmAttempts = [] ∧
    (handleRequest rawBodySize body jobId env).response =
      some { status := 413, headers := [],
             body := .json (.obj
               [("error", .str "request entity too large")]) } := by
  have hn : ¬ rawBodySize ≤ jsonLimitBytes := by omega
  simp [handleRequest, hn]

/-- C10 witness: a body one byte over the 50 MB limit. -/
theorem oversized_body_rejected_witness :
    jsonLimitBytes < 52428801 ∧
    ((handleRequest 52428801 bodyOne "j" envOk).handlerRan = false ∧
     (handleRequest 52428801 bodyOne "j" envOk).jobIdAllocated = false) :=
  ⟨by decide,
   (oversized_body_rejected 52428801 bodyOne "j" envOk (by decide)).1,
   (oversized_body_rejected 52428801 bodyOne "j" envOk (by decide)).2.1⟩

end FfmpegConcat
